import Mathlib

/-! Verification of the Focus core engine: the notification escalation state
machine (focus/notifier.py), activity history with pruning, streak detection
and budget accounting (focus/activity.py), and daily scoring with relative
ranking (focus/summary.py), shallowly embedded from the Python source.
Wall-clock instants and float quantities are modelled as rationals. -/

namespace Focus

unseal Rat.ofScientific Rat.mul Rat.inv Rat.add Rat.sub

/-- Focus classification status (models.FocusStatus); `brk` models "break". -/
inductive FocusStatus
  | on_task
  | off_task
  | brk
  | unknown
deriving DecidableEq, Repr

/-- A classifier output (models.AnalysisResult). -/
structure AnalysisResult where
  status : FocusStatus
  activity_description : String
  confidence : ℚ
  reasoning : String
  suggestion : Option String := none
  timestamp : ℚ
deriving DecidableEq, Repr

/-- A persisted projection of an analysis result (models.ActivityRecord). -/
structure ActivityRecord where
  timestamp : ℚ
  activity_description : String
  status : FocusStatus
  confidence : ℚ
deriving DecidableEq, Repr

/-- models.ActivityRecord.from_analysis. -/
def ActivityRecord.from_analysis (result : AnalysisResult) : ActivityRecord :=
  { timestamp := result.timestamp
    activity_description := result.activity_description
    status := result.status
    confidence := result.confidence }

/-- A time budget (models.TimeBudget). -/
structure TimeBudget where
  activity_pattern : String
  max_minutes : Int
  per_minutes : Int := 60
deriving DecidableEq, Repr

/-- Python `a or b` on an optional string: `None` and the empty string fall
through to `b` (both are falsy in Python). -/
def pyOrStr (a : Option String) (b : String) : String :=
  match a with
  | none => b
  | some s => if s = "" then b else s

/-- Python `int(x)` on a float modelled as a rational: truncation toward
zero, i.e. the quotient of numerator by (positive) denominator. -/
def pyInt (x : ℚ) : Int :=
  x.num / (x.den : Int)

/-- Python substring test `needle in hay` on strings. -/
def pyInStr (needle hay : String) : Bool :=
  decide (needle.toList <:+: hay.toList)

/-- Python `s.lower()`, character by character. -/
def pyLower (s : String) : String :=
  String.mk (s.data.map Char.toLower)

/-- Python `lst[-n:]`: the last `n` elements, except that `n = 0` yields the
whole list (`lst[-0:]` is `lst[0:]`). -/
def takeLastPy (n : Nat) (l : List α) : List α :=
  if n = 0 then l else l.drop (l.length - n)

/-! ## Notifier (focus/notifier.py) -/

/-- The configuration knobs notify_if_needed reads (focus/config.py). -/
structure NotifierConfig where
  notification_cooldown : ℚ
  escalation_delay : ℚ
deriving DecidableEq, Repr

/-- Alert severity: which of the two send paths was taken. -/
inductive Severity
  | gentle
  | urgent
deriving DecidableEq, Repr

/-- A dispatched alert, as handed to the transport sink. -/
structure Alert where
  title : String
  message : String
  sound : Bool
  severity : Severity
deriving DecidableEq, Repr

/-- The mutable notifier state (Notifier.__init__). -/
structure NotifierState where
  last_notification_time : ℚ
  escalation_start : Option ℚ
deriving DecidableEq, Repr

/-- Notifier.__init__ sets last_notification_time to 0 and no escalation. -/
def Notifier.init : NotifierState :=
  { last_notification_time := 0, escalation_start := none }

/-- Notifier._send_gentle. -/
def send_gentle (result : AnalysisResult) : Alert :=
  { title := "Focus Reminder"
    message := pyOrStr result.suggestion
      ("Looks like you are " ++ result.activity_description ++ ". Time to refocus?")
    sound := false
    severity := Severity.gentle }

/-- Notifier._send_urgent. -/
def send_urgent (result : AnalysisResult) (off_task_duration : ℚ) : Alert :=
  let minutes := pyInt (off_task_duration / 60)
  { title := "Focus Alert"
    message := pyOrStr result.suggestion
      ("You have been off-task for " ++ toString minutes ++ "+ minutes ("
        ++ result.activity_description ++ "). Get back to work!")
    sound := true
    severity := Severity.urgent }

/-- Notifier.notify_if_needed: one decide cycle. Returns the new state and
the alert dispatched this cycle, if any. -/
def notify_if_needed (cfg : NotifierConfig) (st : NotifierState) (now : ℚ)
    (result : AnalysisResult) (off_task_duration : ℚ) :
    NotifierState × Option Alert :=
  if result.status ≠ FocusStatus.off_task then
    ({ st with escalation_start := none }, none)
  else if now - st.last_notification_time < cfg.notification_cooldown then
    (st, none)
  else
    let start := st.escalation_start.getD now
    let escalation_time := now - start
    let alert :=
      if cfg.escalation_delay ≤ escalation_time then
        send_urgent result off_task_duration
      else
        send_gentle result
    ({ last_notification_time := now, escalation_start := some start }, some alert)

/-- One decide cycle's inputs: the wall clock, the latest classification and
the streak-derived off-task duration. -/
structure CycleInput where
  now : ℚ
  result : AnalysisResult
  off_task_duration : ℚ
deriving Repr

/-- Run a sequence of decide cycles from a state, collecting the dispatched
alerts with their dispatch times. -/
def runNotifier (cfg : NotifierConfig) (st : NotifierState) :
    List CycleInput → List (ℚ × Alert)
  | [] => []
  | e :: es =>
    let r := notify_if_needed cfg st e.now e.result e.off_task_duration
    match r.2 with
    | none => runNotifier cfg r.1 es
    | some al => (e.now, al) :: runNotifier cfg r.1 es

/-! ## Activity tracking (focus/activity.py) -/

/-- The configuration knobs the tracker reads (focus/config.py). -/
structure TrackerConfig where
  history_window : ℚ
  max_history_entries : Nat
  analysis_interval : ℚ
deriving DecidableEq, Repr

/-- ActivityTracker._prune_history: drop entries older than the window, then
cap the length at max_history_entries keeping the newest (via `lst[-max:]`). -/
def prune_history (cfg : TrackerConfig) (now : ℚ)
    (history : List ActivityRecord) : List ActivityRecord :=
  let cutoff := now - cfg.history_window
  let kept := history.filter fun r => decide (cutoff ≤ r.timestamp)
  if cfg.max_history_entries < kept.length then
    takeLastPy cfg.max_history_entries kept
  else
    kept

/-- ActivityTracker.record, in-memory part: append the derived record, then
prune. -/
def record (cfg : TrackerConfig) (now : ℚ) (history : List ActivityRecord)
    (result : AnalysisResult) : List ActivityRecord :=
  prune_history cfg now (history ++ [ActivityRecord.from_analysis result])

/-- An operation on the tracker: a record() call or a read of the history,
each at a wall-clock instant. -/
inductive LogOp
  | record (now : ℚ) (result : AnalysisResult)
  | read (now : ℚ)

/-- Run a sequence of tracker operations, collecting what every read
observes (reads return the live history and do not prune). -/
def runOps (cfg : TrackerConfig) :
    List ActivityRecord → List LogOp → List (ℚ × List ActivityRecord)
  | _, [] => []
  | history, LogOp.record now result :: ops =>
      runOps cfg (record cfg now history result) ops
  | history, LogOp.read now :: ops =>
      (now, history) :: runOps cfg history ops

/-- The loop body of ActivityTracker.get_current_streak: walk the older
records newest-first, keeping the timestamp of the last one that still
matches the candidate status, stopping at the first mismatch. -/
def streakStartLoop (current_status : FocusStatus) :
    List ActivityRecord → ℚ → ℚ
  | [], acc => acc
  | r :: rs, acc =>
    if r.status = current_status then
      streakStartLoop current_status rs r.timestamp
    else
      acc

/-- ActivityTracker.get_current_streak. -/
def get_current_streak (now : ℚ) (history : List ActivityRecord) :
    FocusStatus × ℚ :=
  match history.getLast? with
  | none => (FocusStatus.unknown, 0)
  | some last =>
    let current_status := last.status
    let streak_start :=
      streakStartLoop current_status history.dropLast.reverse last.timestamp
    (current_status, now - streak_start)

/-- ActivityTracker.get_off_task_duration. -/
def get_off_task_duration (now : ℚ) (history : List ActivityRecord) : ℚ :=
  let s := get_current_streak now history
  if s.1 = FocusStatus.off_task then s.2 else 0

/-- ActivityTracker.check_budgets inner loop: the summed estimated seconds
for one budget. A record below the cutoff is skipped; a matching record
contributes the gap to the next record, or the analysis interval when it is
the newest. -/
def budget_seconds (cfg : TrackerConfig) (cutoff : ℚ) (pattern_lower : String) :
    List ActivityRecord → ℚ
  | [] => 0
  | r :: rs =>
    let rest := budget_seconds cfg cutoff pattern_lower rs
    if r.timestamp < cutoff then rest
    else if pyInStr pattern_lower (pyLower r.activity_description) then
      (match rs with
       | [] => cfg.analysis_interval
       | r2 :: _ => r2.timestamp - r.timestamp) + rest
    else rest

/-- ActivityTracker.check_budgets: the exceeded budgets, reported as the
budget's pattern together with the estimated minutes used (the source
formats these into a violation string). -/
def check_budgets (cfg : TrackerConfig) (now : ℚ)
    (history : List ActivityRecord) (budgets : List TimeBudget) :
    List (String × ℚ) :=
  budgets.filterMap fun budget =>
    let cutoff := now - (budget.per_minutes : ℚ) * 60
    let pattern_lower := pyLower budget.activity_pattern
    let total_minutes := budget_seconds cfg cutoff pattern_lower history / 60
    if (budget.max_minutes : ℚ) < total_minutes then
      some (budget.activity_pattern, total_minutes)
    else
      none

/-- Each record of the log paired with its successor, if any; used to state
the duration-estimation policy the way the specification words it. -/
def withNext : List ActivityRecord → List (ActivityRecord × Option ActivityRecord)
  | [] => []
  | r :: rs => (r, rs.head?) :: withNext rs

/-- The estimated duration of one record under the policy: gap to the next
record when one exists, the nominal analysis interval otherwise. -/
def estimatedSeconds (cfg : TrackerConfig) :
    ActivityRecord × Option ActivityRecord → ℚ
  | (_, none) => cfg.analysis_interval
  | (r, some r2) => r2.timestamp - r.timestamp

/-- The summed estimate as the specification words it: over every record in
the window [now - per, now] whose lowered description contains the lowered
pattern. -/
def budgetSecondsSpec (cfg : TrackerConfig) (now window : ℚ)
    (pattern_lower : String) (history : List ActivityRecord) : ℚ :=
  (((withNext history).filter fun p =>
      decide (now - window ≤ p.1.timestamp) && decide (p.1.timestamp ≤ now) &&
        pyInStr pattern_lower (pyLower p.1.activity_description)).map
    (estimatedSeconds cfg)).sum

/-! ## Daily summary (focus/summary.py) -/

/-- The five ranking tiers, lowest to highest (summary.RANKINGS). -/
def RANKINGS : List String :=
  ["waste of ATP", "lazy", "nothing special", "productive", "paul dirac"]

/-- The ascending thresholds on todayScore / meanScore (summary). -/
def rank_thresholds : List ℚ := [2/5, 7/10, 11/10, 7/5]

/-- DailySummary._build_summary score computation, from the day's record
statuses: on-task fraction of the productive (on_task + off_task) samples
times 100, defaulting to 50 with no productive sample. -/
def build_score (statuses : List String) : ℚ :=
  let on_task := (statuses.filter fun s => s == "on_task").length
  let off_task := (statuses.filter fun s => s == "off_task").length
  let productive_checks := on_task + off_task
  if 0 < productive_checks then
    (on_task : ℚ) / (productive_checks : ℚ) * 100
  else
    50

/-- A persisted daily summary as the ranking reads it back: its date string
and score. -/
structure StoredSummary where
  date : String
  score : ℚ
deriving DecidableEq, Repr

/-- DailySummary.get_recent over an abstract summary store: `store i` is the
persisted summary of `i` days ago, if any; loads days 0 .. days-1. -/
def get_recent (store : Nat → Option StoredSummary) (days : Nat) :
    List StoredSummary :=
  (List.range days).filterMap store

/-- The threshold loop of DailySummary._rank: the first tier whose threshold
exceeds the ratio, or the default when none does. -/
def rankLoop (q : ℚ) : List (ℚ × String) → String → String
  | [], dflt => dflt
  | (t, name) :: rest, dflt =>
    if q < t then name else rankLoop q rest dflt

/-- The scores DailySummary._rank averages over: scores of loaded summaries
that are not today's and are positive. -/
def past_scores (past : List StoredSummary) (today_str : String) : List ℚ :=
  (past.filter fun s => decide (s.date ≠ today_str) && decide (0 < s.score)).map
    (fun s => s.score)

/-- DailySummary._rank given the loaded recent summaries: with no retained
past score, rank is "productive"; otherwise map score / average through the
thresholds. -/
def rank (past : List StoredSummary) (today_str : String) (score : ℚ) :
    String :=
  let ps := past_scores past today_str
  if ps.isEmpty then "productive"
  else
    let avg := ps.sum / (ps.length : ℚ)
    if avg = 0 then "productive"
    else rankLoop (score / avg) (rank_thresholds.zip RANKINGS) (RANKINGS.getLastD "")

/-- DailySummary._rank composed with its get_recent(days=30) load. -/
def rank_full (store : Nat → Option StoredSummary) (today_str : String)
    (score : ℚ) : String :=
  rank (get_recent store 30) today_str score

/-- The ranking as the specification words it, for comparison: the mean is
over all loaded prior-day summaries, excluding only today. -/
def rankSpec (past : List StoredSummary) (today_str : String) (score : ℚ) :
    String :=
  let past_scores :=
    (past.filter fun s => decide (s.date ≠ today_str)).map (fun s => s.score)
  if past_scores.isEmpty then "productive"
  else
    let avg := past_scores.sum / (past_scores.length : ℚ)
    rankLoop (score / avg) (rank_thresholds.zip RANKINGS) (RANKINGS.getLastD "")

/-! ## Persistence control flow (activity._append_log, summary._save) -/

/-- ActivityRecord.to_json_line: the JSONL projection of a record. -/
def to_json_line (r : ActivityRecord) : String :=
  "\x7b\"timestamp\": \"" ++ toString r.timestamp ++ "\", \"status\": \"" ++
    (match r.status with
     | FocusStatus.on_task => "on_task"
     | FocusStatus.off_task => "off_task"
     | FocusStatus.brk => "break"
     | FocusStatus.unknown => "unknown") ++ "\"\x7d"

/-- A raw file append: the underlying write either succeeds, extending the
line log, or fails with an error, according to the environment flag. -/
def raw_append (writeOk : Bool) (log : List String) (line : String) :
    Except String (List String) :=
  if writeOk then Except.ok (log ++ [line]) else Except.error "write failed"

/-- ActivityTracker._append_log: performs the raw append and catches its
failure, leaving the log unchanged in that case. -/
def append_log (writeOk : Bool) (log : List String) (r : ActivityRecord) :
    List String :=
  match raw_append writeOk log (to_json_line r) with
  | Except.ok l => l
  | Except.error _ => log

/-- The tracker state with its persistent log modelled alongside. -/
structure TrackerState where
  history : List ActivityRecord
  log : List String
deriving Repr

/-- ActivityTracker.record in full: append to history, prune, then attempt
the persistent append with its failure caught. Total: it never propagates a
write error. -/
def record_with_log (cfg : TrackerConfig) (writeOk : Bool) (now : ℚ)
    (st : TrackerState) (result : AnalysisResult) : TrackerState :=
  let r := ActivityRecord.from_analysis result
  { history := prune_history cfg now (st.history ++ [r])
    log := append_log writeOk st.log r }

/-- The summary generated by DailySummary.generate_today. -/
structure SummaryOut where
  day : String
  score : ℚ
  ranking : String
deriving DecidableEq, Repr

/-- DailySummary._save: a raw keyed write with no exception handler. -/
def save_summary (writeOk : Bool) (store : List (String × String))
    (day : String) (text : String) : Except String (List (String × String)) :=
  if writeOk then Except.ok (store ++ [(day, text)])
  else Except.error "write failed"

/-- DailySummary.generate_today: build the summary, rank it, save it (the
save is not guarded by a handler, so its failure propagates), then return
the summary together with the updated store. -/
def generate_today (writeOk : Bool) (store : List (String × String))
    (day : String) (statuses : List String) (past : List StoredSummary) :
    Except String (List (String × String) × SummaryOut) :=
  let score := build_score statuses
  let summary : SummaryOut := { day := day, score := score, ranking := rank past day score }
  match save_summary writeOk store day (toString summary.score) with
  | Except.ok store2 => Except.ok (store2, summary)
  | Except.error e => Except.error e

/-! ## Concrete scenarios from the specification's examples -/

/-- Cooldown 120s, escalation delay 120s (the config defaults). -/
def cfg120 : NotifierConfig :=
  { notification_cooldown := 120, escalation_delay := 120 }

/-- An off-task classification with no suggestion text. -/
def offRes : AnalysisResult :=
  { status := FocusStatus.off_task
    activity_description := "scrolling a news feed"
    confidence := 9/10
    reasoning := ""
    suggestion := none
    timestamp := 1000 }

/-- An off-task classification carrying a suggestion. -/
def offResSuggest : AnalysisResult :=
  { status := FocusStatus.off_task
    activity_description := "watching videos"
    confidence := 1
    reasoning := ""
    suggestion := some "Back to work"
    timestamp := 1000 }

/-- An on-task classification. -/
def onRes : AnalysisResult :=
  { status := FocusStatus.on_task
    activity_description := "writing code"
    confidence := 1
    reasoning := ""
    suggestion := none
    timestamp := 1000 }

/-- A 10-second window, 5-entry cap, 30-second interval tracker config. -/
def smallCfg : TrackerConfig :=
  { history_window := 10, max_history_entries := 5, analysis_interval := 30 }

/-- An analysis result stamped at the epoch. -/
def resAt0 : AnalysisResult :=
  { status := FocusStatus.on_task
    activity_description := "writing code"
    confidence := 1
    reasoning := ""
    suggestion := none
    timestamp := 0 }

/-- The spec's streak example: off_task at t=0 and t=10, on_task at t=20. -/
def exStreakHistory : List ActivityRecord :=
  [ { timestamp := 0, activity_description := "a", status := FocusStatus.off_task, confidence := 1 }
  , { timestamp := 10, activity_description := "b", status := FocusStatus.off_task, confidence := 1 }
  , { timestamp := 20, activity_description := "c", status := FocusStatus.on_task, confidence := 1 } ]

/-- The newest record of the streak example. -/
def exStreakLast : ActivityRecord :=
  { timestamp := 20, activity_description := "c", status := FocusStatus.on_task, confidence := 1 }

/-- The spec's budget example: matching records at t=0 and t=5 minutes. -/
def exBudgetHistory : List ActivityRecord :=
  [ { timestamp := 0, activity_description := "watching YouTube", status := FocusStatus.off_task, confidence := 1 }
  , { timestamp := 300, activity_description := "youtube music", status := FocusStatus.off_task, confidence := 1 } ]

/-- The spec's budget example budget: 5 minutes of youtube per hour. -/
def exBudget : TimeBudget :=
  { activity_pattern := "youtube", max_minutes := 5, per_minutes := 60 }

/-- A 30-minute window, 60-entry, 30-second interval tracker config (the
config defaults). -/
def defaultTrackerCfg : TrackerConfig :=
  { history_window := 1800, max_history_entries := 60, analysis_interval := 30 }

/-- The spec's scoring example day: 8 on_task, 2 off_task, 0 break. -/
def exDay : List String :=
  List.replicate 8 "on_task" ++ List.replicate 2 "off_task"

/-- Two prior-day summaries, one scored zero. -/
def exPastZero : List StoredSummary :=
  [ { date := "2026-10-10", score := 0 }
  , { date := "2026-10-11", score := 100 } ]

/-- Two prior-day summaries averaging 60. -/
def exPast60 : List StoredSummary :=
  [ { date := "2026-10-10", score := 40 }
  , { date := "2026-10-11", score := 80 } ]

/-! ## Notifier lemmas -/

/-- A non-off-task cycle clears the escalation start and dispatches nothing. -/
theorem notify_if_needed_reset (cfg : NotifierConfig) (st : NotifierState)
    (now : ℚ) (result : AnalysisResult) (d : ℚ)
    (hne : result.status ≠ FocusStatus.off_task) :
    notify_if_needed cfg st now result d =
      ({ st with escalation_start := none }, none) := by
  simp [notify_if_needed, hne]

/-- An off-task cycle inside the cooldown window is suppressed. -/
theorem notify_if_needed_suppressed (cfg : NotifierConfig) (st : NotifierState)
    (now : ℚ) (result : AnalysisResult) (d : ℚ)
    (hoff : result.status = FocusStatus.off_task)
    (hlt : now - st.last_notification_time < cfg.notification_cooldown) :
    notify_if_needed cfg st now result d = (st, none) := by
  simp [notify_if_needed, hoff, hlt]

/-- An off-task cycle past the cooldown dispatches, urgently iff the time
since the (possibly just-set) escalation start reaches the delay. -/
theorem notify_if_needed_dispatch (cfg : NotifierConfig) (st : NotifierState)
    (now : ℚ) (result : AnalysisResult) (d : ℚ)
    (hoff : result.status = FocusStatus.off_task)
    (hcd : cfg.notification_cooldown ≤ now - st.last_notification_time) :
    notify_if_needed cfg st now result d =
      ({ last_notification_time := now,
         escalation_start := some (st.escalation_start.getD now) },
       some (if cfg.escalation_delay ≤ now - st.escalation_start.getD now
             then send_urgent result d
             else send_gentle result)) := by
  simp [notify_if_needed, hoff, not_lt.mpr hcd]

/-- Every cycle either dispatches nothing and keeps the last-notification
time, or dispatches with the cooldown having elapsed and stamps the time. -/
theorem notify_if_needed_cases (cfg : NotifierConfig) (st : NotifierState)
    (now : ℚ) (result : AnalysisResult) (d : ℚ) :
    ((notify_if_needed cfg st now result d).2 = none ∧
      (notify_if_needed cfg st now result d).1.last_notification_time =
        st.last_notification_time) ∨
    ((∃ al, (notify_if_needed cfg st now result d).2 = some al) ∧
      (notify_if_needed cfg st now result d).1.last_notification_time = now ∧
      st.last_notification_time + cfg.notification_cooldown ≤ now) := by
  by_cases h1 : result.status = FocusStatus.off_task
  · by_cases h2 : now - st.last_notification_time < cfg.notification_cooldown
    · left
      rw [notify_if_needed_suppressed cfg st now result d h1 h2]
      exact ⟨rfl, rfl⟩
    · right
      rw [notify_if_needed_dispatch cfg st now result d h1 (not_lt.mp h2)]
      refine ⟨⟨_, rfl⟩, rfl, ?_⟩
      have := not_lt.mp h2
      linarith
  · left
    rw [notify_if_needed_reset cfg st now result d h1]
    exact ⟨rfl, rfl⟩

/-- Unfolding runNotifier over a suppressed or resetting cycle. -/
theorem runNotifier_cons_none (cfg : NotifierConfig) (st : NotifierState)
    (e : CycleInput) (es : List CycleInput)
    (h : (notify_if_needed cfg st e.now e.result e.off_task_duration).2 = none) :
    runNotifier cfg st (e :: es) =
      runNotifier cfg (notify_if_needed cfg st e.now e.result e.off_task_duration).1 es := by
  simp [runNotifier, h]

/-- Unfolding runNotifier over a dispatching cycle. -/
theorem runNotifier_cons_some (cfg : NotifierConfig) (st : NotifierState)
    (e : CycleInput) (es : List CycleInput) (al : Alert)
    (h : (notify_if_needed cfg st e.now e.result e.off_task_duration).2 = some al) :
    runNotifier cfg st (e :: es) =
      (e.now, al) ::
        runNotifier cfg (notify_if_needed cfg st e.now e.result e.off_task_duration).1 es := by
  simp [runNotifier, h]

/-- Cooldown invariant of a run: every dispatch is at least a cooldown past
the incoming last-notification time, and consecutive dispatches are at
least a cooldown apart. -/
theorem runNotifier_dispatch_bound (cfg : NotifierConfig)
    (h0 : 0 ≤ cfg.notification_cooldown) :
    ∀ (es : List CycleInput) (st : NotifierState),
      (∀ p ∈ runNotifier cfg st es,
          st.last_notification_time + cfg.notification_cooldown ≤ p.1) ∧
      (runNotifier cfg st es).Pairwise
        (fun p q => cfg.notification_cooldown ≤ q.1 - p.1)
  | [], st => by simp [runNotifier]
  | e :: es, st => by
    rcases notify_if_needed_cases cfg st e.now e.result e.off_task_duration with
      ⟨hn, hl⟩ | ⟨⟨al, hal⟩, hl, hge⟩
    · rw [runNotifier_cons_none cfg st e es hn]
      obtain ⟨ihA, ihB⟩ := runNotifier_dispatch_bound cfg h0 es
        (notify_if_needed cfg st e.now e.result e.off_task_duration).1
      refine ⟨fun p hp => ?_, ihB⟩
      have := ihA p hp
      rw [hl] at this
      exact this
    · rw [runNotifier_cons_some cfg st e es al hal]
      obtain ⟨ihA, ihB⟩ := runNotifier_dispatch_bound cfg h0 es
        (notify_if_needed cfg st e.now e.result e.off_task_duration).1
      rw [hl] at ihA
      constructor
      · intro p hp
        rcases List.mem_cons.mp hp with hp | hp
        · rw [hp]
          exact hge
        · have := ihA p hp
          linarith
      · refine List.pairwise_cons.mpr ⟨fun q hq => ?_, ihB⟩
        have := ihA q hq
        linarith

/-! ## Claim theorems: notifier -/

/-- C10: a fresh Notifier has last_notification_time 0 (the epoch), so for
any wall-clock time at least one cooldown past the epoch, the cooldown
check cannot suppress the first cycle: an off-task sample dispatches. -/
theorem fresh_notifier_first_cycle_dispatches
    (cfg : NotifierConfig) (now : ℚ) (result : AnalysisResult) (d : ℚ)
    (hoff : result.status = FocusStatus.off_task)
    (hcd : cfg.notification_cooldown ≤ now) :
    Notifier.init.last_notification_time = 0 ∧
    ((notify_if_needed cfg Notifier.init now result d).2).isSome = true := by
  refine ⟨rfl, ?_⟩
  rw [notify_if_needed_dispatch cfg Notifier.init now result d hoff
    (by simpa [Notifier.init] using hcd)]
  rfl

/-- C10 witness: at cooldown 120 and wall clock 1000, the first off-task
sample is dispatched. -/
theorem fresh_notifier_first_cycle_dispatches_witness :
    Notifier.init.last_notification_time = 0 ∧
    ((notify_if_needed cfg120 Notifier.init 1000 offRes 5).2).isSome = true :=
  fresh_notifier_first_cycle_dispatches cfg120 1000 offRes 5 (by decide) (by decide)

/-- C3: a non-off-task cycle clears escalation_start and dispatches nothing;
consequently, with a positive escalation delay and the cooldown elapsed, the
next off-task cycle dispatches a gentle, not urgent, alert. -/
theorem reset_then_first_off_task_is_gentle
    (cfg : NotifierConfig) (st : NotifierState) (now now2 d d2 : ℚ)
    (res res2 : AnalysisResult)
    (hne : res.status ≠ FocusStatus.off_task)
    (hoff : res2.status = FocusStatus.off_task)
    (hcd : cfg.notification_cooldown ≤ now2 - st.last_notification_time)
    (hdelay : 0 < cfg.escalation_delay) :
    (notify_if_needed cfg st now res d).2 = none ∧
    (notify_if_needed cfg st now res d).1.escalation_start = none ∧
    (notify_if_needed cfg (notify_if_needed cfg st now res d).1 now2 res2 d2).2 =
      some (send_gentle res2) ∧
    (send_gentle res2).severity = Severity.gentle := by
  rw [notify_if_needed_reset cfg st now res d hne]
  refine ⟨rfl, rfl, ?_, rfl⟩
  rw [notify_if_needed_dispatch cfg { st with escalation_start := none } now2 res2 d2 hoff
    (by simpa using hcd)]
  simp only [Option.getD_none, sub_self]
  rw [if_neg (not_le.mpr hdelay)]

/-- C3 witness: an on-task cycle at t=1000 then an off-task cycle at t=1300
with cooldown 120 and delay 120 yields no alert then a gentle alert. -/
theorem reset_then_first_off_task_is_gentle_witness :
    (notify_if_needed cfg120 Notifier.init 1000 onRes 0).2 = none ∧
    (notify_if_needed cfg120 Notifier.init 1000 onRes 0).1.escalation_start = none ∧
    (notify_if_needed cfg120 (notify_if_needed cfg120 Notifier.init 1000 onRes 0).1
        1300 offRes 5).2 = some (send_gentle offRes) ∧
    (send_gentle offRes).severity = Severity.gentle :=
  reset_then_first_off_task_is_gentle cfg120 Notifier.init 1000 1300 0 5 onRes offRes
    (by decide) (by decide) (by decide) (by decide)

/-- A string is an infix of any append that surrounds it. -/
theorem toList_infix_middle (a m b : String) :
    m.toList <:+: (a ++ m ++ b).toList := by
  refine ⟨a.toList, b.toList, ?_⟩
  change a.data ++ m.data ++ b.data = ((a ++ m) ++ b).data
  simp [String.data_append]

/-- C1 counterexample: off-task with cooldown elapsed and escalation delay
reached, but the classifier supplied a suggestion, so the urgent alert's
message is the suggestion text and does not include the integer minutes
(600 seconds off-task gives 10 minutes, yet "10" does not occur). -/
theorem off_task_urgent_message_cex :
    (notify_if_needed cfg120
        { last_notification_time := 0, escalation_start := some 0 }
        1000 offResSuggest 600).2 = some (send_urgent offResSuggest 600) ∧
    (send_urgent offResSuggest 600).severity = Severity.urgent ∧
    cfg120.escalation_delay ≤ (1000 : ℚ) - 0 ∧
    cfg120.notification_cooldown ≤ (1000 : ℚ) - 0 ∧
    pyInt ((600 : ℚ) / 60) = 10 ∧
    (send_urgent offResSuggest 600).message = "Back to work" ∧
    ¬ ((toString (pyInt ((600 : ℚ) / 60))).toList <:+:
        (send_urgent offResSuggest 600).message.toList) := by
  decide

/-- C1 (amended): for an off-task cycle past the cooldown, with `start` the
escalation start (set to now when previously unset), the state stamps
last_notification_time := now and an alert is dispatched: urgent when
now - start reaches the escalation delay, gentle otherwise; in both cases
the message is the classifier's suggestion when that is non-empty, and
otherwise a templated fallback — including the integer minutes of the
off-task duration in the urgent case and naming the activity in the gentle
case. -/
theorem off_task_cycle_dispatches
    (cfg : NotifierConfig) (st : NotifierState) (now d : ℚ)
    (result : AnalysisResult)
    (hoff : result.status = FocusStatus.off_task)
    (hcd : cfg.notification_cooldown ≤ now - st.last_notification_time) :
    (notify_if_needed cfg st now result d).1.last_notification_time = now ∧
    (notify_if_needed cfg st now result d).1.escalation_start =
      some (st.escalation_start.getD now) ∧
    ∃ al, (notify_if_needed cfg st now result d).2 = some al ∧
      (cfg.escalation_delay ≤ now - st.escalation_start.getD now →
        al.severity = Severity.urgent ∧
        ((result.suggestion = none ∨ result.suggestion = some "") →
          (toString (pyInt (d / 60))).toList <:+: al.message.toList)) ∧
      (now - st.escalation_start.getD now < cfg.escalation_delay →
        al.severity = Severity.gentle ∧
        ((result.suggestion = none ∨ result.suggestion = some "") →
          result.activity_description.toList <:+: al.message.toList)) ∧
      (∀ s, result.suggestion = some s → s ≠ "" → al.message = s) := by
  rw [notify_if_needed_dispatch cfg st now result d hoff hcd]
  refine ⟨rfl, rfl, _, rfl, ?_, ?_, ?_⟩
  · intro hesc
    rw [if_pos hesc]
    refine ⟨rfl, fun hs => ?_⟩
    have hmsg : (send_urgent result d).message =
        pyOrStr result.suggestion
          ("You have been off-task for " ++ toString (pyInt (d / 60)) ++
            ("+ minutes (" ++ result.activity_description ++ "). Get back to work!")) := by
      simp only [send_urgent]
      rcases result.suggestion with _ | s <;>
        simp [pyOrStr, String.append_assoc]
    rw [hmsg]
    rcases hs with hs | hs <;> rw [hs] <;>
      exact toList_infix_middle "You have been off-task for " _ _
  · intro hesc
    rw [if_neg (not_le.mpr hesc)]
    refine ⟨rfl, fun hs => ?_⟩
    have hmsg : (send_gentle result).message =
        pyOrStr result.suggestion
          ("Looks like you are " ++ result.activity_description ++
            ". Time to refocus?") := rfl
    rw [hmsg]
    rcases hs with hs | hs <;> rw [hs] <;>
      exact toList_infix_middle "Looks like you are " _ _
  · intro s hs hne
    split <;> simp [send_urgent, send_gentle, hs, pyOrStr, hne]

/-- C1 witness: off-task at t=1000 from a fresh state, cooldown elapsed,
escalation just started, no suggestion: a gentle alert naming the activity. -/
theorem off_task_cycle_dispatches_witness :
    (notify_if_needed cfg120 Notifier.init 1000 offRes 5).1.last_notification_time = 1000 ∧
    (notify_if_needed cfg120 Notifier.init 1000 offRes 5).1.escalation_start =
      some (Notifier.init.escalation_start.getD 1000) ∧
    ∃ al, (notify_if_needed cfg120 Notifier.init 1000 offRes 5).2 = some al ∧
      (cfg120.escalation_delay ≤ 1000 - Notifier.init.escalation_start.getD 1000 →
        al.severity = Severity.urgent ∧
        ((offRes.suggestion = none ∨ offRes.suggestion = some "") →
          (toString (pyInt ((5 : ℚ) / 60))).toList <:+: al.message.toList)) ∧
      (1000 - Notifier.init.escalation_start.getD 1000 < cfg120.escalation_delay →
        al.severity = Severity.gentle ∧
        ((offRes.suggestion = none ∨ offRes.suggestion = some "") →
          offRes.activity_description.toList <:+: al.message.toList)) ∧
      (∀ s, offRes.suggestion = some s → s ≠ "" → al.message = s) :=
  off_task_cycle_dispatches cfg120 Notifier.init 1000 5 offRes (by decide) (by decide)

/-- C2: with a nonnegative cooldown, any two alerts dispatched across a run
of decide cycles are at least one cooldown apart; and concretely, two
off-task samples 5 seconds apart under cooldown 120 dispatch exactly one
alert. -/
theorem alerts_separated_by_cooldown (cfg : NotifierConfig)
    (st : NotifierState) (es : List CycleInput)
    (h0 : 0 ≤ cfg.notification_cooldown) :
    (runNotifier cfg st es).Pairwise
      (fun p q => cfg.notification_cooldown ≤ q.1 - p.1) ∧
    (runNotifier cfg120 Notifier.init
      [⟨1000, offRes, 5⟩, ⟨1005, offRes, 10⟩]).length = 1 :=
  ⟨(runNotifier_dispatch_bound cfg h0 es st).2, by decide⟩

/-- C2 witness: the separation property instantiated on the two-sample run. -/
theorem alerts_separated_by_cooldown_witness :
    (runNotifier cfg120 Notifier.init
      [⟨1000, offRes, 5⟩, ⟨1005, offRes, 10⟩]).Pairwise
      (fun p q => cfg120.notification_cooldown ≤ q.1 - p.1) ∧
    (runNotifier cfg120 Notifier.init
      [⟨1000, offRes, 5⟩, ⟨1005, offRes, 10⟩]).length = 1 :=
  alerts_separated_by_cooldown cfg120 Notifier.init
    [⟨1000, offRes, 5⟩, ⟨1005, offRes, 10⟩] (by decide)

/-! ## Tracker lemmas -/

/-- takeLastPy yields a suffix of its input. -/
theorem takeLastPy_suffix (n : Nat) (l : List α) : takeLastPy n l <:+ l := by
  unfold takeLastPy
  split
  · exact List.suffix_refl l
  · exact List.drop_suffix _ l

/-- With a positive cap, takeLastPy caps the length. -/
theorem takeLastPy_length_le (n : Nat) (l : List α) (h : 1 ≤ n) :
    (takeLastPy n l).length ≤ n := by
  unfold takeLastPy
  rw [if_neg (by omega)]
  rw [List.length_drop]
  omega

/-- The last element survives takeLastPy. -/
theorem mem_takeLastPy_concat (n : Nat) (l : List α) (a : α) :
    a ∈ takeLastPy n (l ++ [a]) := by
  unfold takeLastPy
  split
  · simp
  · by_cases h : (l ++ [a]).length - n ≤ l.length
    · rw [List.drop_append_of_le_length h]
      simp
    · have : (l ++ [a]).length - n = l.length + 1 - n := by simp
      omega

/-- Anything the pruning filter keeps is at most a window old. -/
theorem age_of_mem_filter (cfg : TrackerConfig) (now : ℚ)
    (l : List ActivityRecord) (r : ActivityRecord)
    (hr : r ∈ l.filter fun r => decide (now - cfg.history_window ≤ r.timestamp)) :
    now - r.timestamp ≤ cfg.history_window := by
  rcases List.mem_filter.mp hr with ⟨-, h⟩
  have := of_decide_eq_true h
  linarith

/-! ## Claim theorems: activity log invariants -/

/-- C4 counterexample: pruning happens only inside record(), so a read 100
seconds later still observes the record made at time 0 even though the
history window is 10 seconds: the invariant does not hold at the moment of
an arbitrary read. -/
theorem read_observes_stale_record_cex :
    runOps smallCfg [] [LogOp.record 0 resAt0, LogOp.read 100] =
      [(100, [ActivityRecord.from_analysis resAt0])] ∧
    ¬ ((100 : ℚ) - (ActivityRecord.from_analysis resAt0).timestamp ≤
        smallCfg.history_window) := by
  decide

/-- C4 (amended): immediately after any record() call — the only moment the
log prunes — and given a positive entry cap, the history holds at most
max_history_entries records, every record is at most history_window old
relative to the record-call time, and the history is a suffix of the
time-filtered appended history: the time cutoff is applied first and the
count cap then drops oldest records first. -/
theorem record_prune_invariant (cfg : TrackerConfig) (now : ℚ)
    (history : List ActivityRecord) (result : AnalysisResult)
    (hmax : 1 ≤ cfg.max_history_entries) :
    (record cfg now history result).length ≤ cfg.max_history_entries ∧
    (∀ r ∈ record cfg now history result,
        now - r.timestamp ≤ cfg.history_window) ∧
    record cfg now history result <:+
      ((history ++ [ActivityRecord.from_analysis result]).filter
        fun r => decide (now - cfg.history_window ≤ r.timestamp)) := by
  unfold record prune_history
  set kept :=
    ((history ++ [ActivityRecord.from_analysis result]).filter
      fun r => decide (now - cfg.history_window ≤ r.timestamp)) with hkept
  by_cases h : cfg.max_history_entries < kept.length
  · rw [if_pos h]
    refine ⟨takeLastPy_length_le _ _ hmax, fun r hr => ?_, takeLastPy_suffix _ _⟩
    exact age_of_mem_filter cfg now _ r ((takeLastPy_suffix _ _).subset hr)
  · rw [if_neg h]
    exact ⟨not_lt.mp h, fun r hr => age_of_mem_filter cfg now _ r hr,
      List.suffix_refl _⟩

/-- C4 witness: the invariant instantiated on recording one fresh result
into an empty history under the small config. -/
theorem record_prune_invariant_witness :
    (record smallCfg 0 [] resAt0).length ≤ smallCfg.max_history_entries ∧
    (∀ r ∈ record smallCfg 0 [] resAt0,
        (0 : ℚ) - r.timestamp ≤ smallCfg.history_window) ∧
    record smallCfg 0 [] resAt0 <:+
      (([] ++ [ActivityRecord.from_analysis resAt0]).filter
        fun r => decide ((0 : ℚ) - smallCfg.history_window ≤ r.timestamp)) :=
  record_prune_invariant smallCfg 0 [] resAt0 (by decide)

/-- The backward scan of get_current_streak computes the timestamp of the
last element of the matching prefix of its input (the trailing run of the
history, since the input is reversed), falling back to the accumulator. -/
theorem streakStartLoop_eq_takeWhile (s : FocusStatus) :
    ∀ (l : List ActivityRecord) (acc : ℚ),
      streakStartLoop s l acc =
        (((l.takeWhile fun r => decide (r.status = s)).getLast?).map
          (fun r => r.timestamp)).getD acc
  | [], acc => by simp [streakStartLoop]
  | r :: rs, acc => by
    by_cases h : r.status = s
    · have hcond : decide (r.status = s) = true := by simp [h]
      have ih := streakStartLoop_eq_takeWhile s rs r.timestamp
      simp only [streakStartLoop, if_pos h, List.takeWhile_cons, hcond, if_true]
      rcases htw : rs.takeWhile fun r => decide (r.status = s) with _ | ⟨t, ts'⟩
      · rw [htw] at ih
        rw [htw]
        simp at ih ⊢
        exact ih
      · rw [htw] at ih
        rw [htw, List.getLast?_cons_cons]
        have hgl : (t :: ts').getLast? = some ((t :: ts').getLast (by simp)) :=
          List.getLast?_eq_getLast _ (by simp)
        rw [hgl] at ih ⊢
        simpa using ih
    · have hcond : decide (r.status = s) = false := by simp [h]
      simp [streakStartLoop, h, List.takeWhile_cons, hcond]

/-! ## Claim theorems: streaks -/

/-- C5: the streak of an empty log is (unknown, 0); on a non-empty log it is
the newest record's status paired with now minus the timestamp of the
earliest record of the maximal trailing same-status run (the last element
of the reversed history's matching prefix); and the off-task duration is
that duration when the streak status is off_task and 0 otherwise. -/
theorem current_streak_spec (now : ℚ) (history : List ActivityRecord) :
    (history = [] → get_current_streak now history = (FocusStatus.unknown, 0)) ∧
    (∀ last, history.getLast? = some last →
      ∃ first,
        (history.reverse.takeWhile fun r => decide (r.status = last.status)).getLast? =
          some first ∧
        get_current_streak now history = (last.status, now - first.timestamp)) ∧
    get_off_task_duration now history =
      (if (get_current_streak now history).1 = FocusStatus.off_task
       then (get_current_streak now history).2 else 0) := by
  refine ⟨fun h => by subst h; rfl, ?_, rfl⟩
  induction history using List.reverseRecOn with
  | nil => intro last hlast; simp at hlast
  | append_singleton l' a ih =>
    clear ih
    intro last hlast
    rw [List.getLast?_concat] at hlast
    injection hlast with hlast
    subst hlast
    have hstreak : get_current_streak now (l' ++ [a]) =
        (a.status, now - streakStartLoop a.status l'.reverse a.timestamp) := by
      unfold get_current_streak
      rw [List.getLast?_concat]
      simp [List.dropLast_concat]
    have hrev : (l' ++ [a]).reverse = a :: l'.reverse := by
      simp
    have htc : (a :: l'.reverse).takeWhile (fun r => decide (r.status = a.status)) =
        a :: l'.reverse.takeWhile (fun r => decide (r.status = a.status)) := by
      simp [List.takeWhile_cons]
    rw [hrev, htc]
    have hloop := streakStartLoop_eq_takeWhile a.status l'.reverse a.timestamp
    rcases htw : l'.reverse.takeWhile fun r => decide (r.status = a.status) with
      _ | ⟨t, ts'⟩
    · rw [htw] at hloop ⊢
      refine ⟨a, by simp, ?_⟩
      rw [hstreak, hloop]
      simp
    · have hgl : (t :: ts').getLast? = some ((t :: ts').getLast (by simp)) :=
        List.getLast?_eq_getLast _ (by simp)
      refine ⟨(t :: ts').getLast (by simp), ?_, ?_⟩
      · rw [htw, List.getLast?_cons_cons, hgl]
      · rw [htw, hgl] at hloop
        rw [hstreak, hloop]
        simp

/-- C5 witness: on records off_task at t=0 and t=10 and on_task at t=20,
the streak at t=20 is (on_task, 0) and the off-task duration is 0. -/
theorem current_streak_spec_witness :
    get_current_streak 20 exStreakHistory = (FocusStatus.on_task, 0) ∧
    get_off_task_duration 20 exStreakHistory = 0 := by
  obtain ⟨first, hf, he⟩ :=
    (current_streak_spec 20 exStreakHistory).2.1 exStreakLast (by decide)
  have hfx : (exStreakHistory.reverse.takeWhile
      fun r => decide (r.status = exStreakLast.status)).getLast? = some exStreakLast := by
    decide
  rw [hfx] at hf
  obtain rfl : exStreakLast = first := Option.some.inj hf
  rw [he]
  exact ⟨by decide, by rw [(current_streak_spec 20 exStreakHistory).2.2, he]; decide⟩

/-- The source's per-record estimate agrees with the policy's estimate over
the record-successor pairing. -/
theorem est_match_head (cfg : TrackerConfig) (r : ActivityRecord)
    (rs : List ActivityRecord) :
    (match rs with
     | [] => cfg.analysis_interval
     | r2 :: _ => r2.timestamp - r.timestamp) =
      estimatedSeconds cfg (r, rs.head?) := by
  cases rs <;> rfl

/-- Unfolding the specification sum over the head pair. -/
theorem budgetSecondsSpec_cons (cfg : TrackerConfig) (now window : ℚ)
    (pattern_lower : String) (r : ActivityRecord) (rs : List ActivityRecord) :
    budgetSecondsSpec cfg now window pattern_lower (r :: rs) =
      (if decide (now - window ≤ r.timestamp) && decide (r.timestamp ≤ now) &&
          pyInStr pattern_lower (pyLower r.activity_description)
       then estimatedSeconds cfg (r, rs.head?) else 0) +
      budgetSecondsSpec cfg now window pattern_lower rs := by
  unfold budgetSecondsSpec
  rw [show withNext (r :: rs) = (r, rs.head?) :: withNext rs from rfl]
  rw [List.filter_cons]
  split <;> simp

/-- Under the realistic assumption that no record is stamped in the future,
the source's budget loop computes exactly the specification's windowed sum. -/
theorem budget_seconds_eq_spec (cfg : TrackerConfig) (now window : ℚ)
    (pattern_lower : String) :
    ∀ history : List ActivityRecord, (∀ r ∈ history, r.timestamp ≤ now) →
      budget_seconds cfg (now - window) pattern_lower history =
        budgetSecondsSpec cfg now window pattern_lower history
  | [], _ => by simp [budget_seconds, budgetSecondsSpec, withNext]
  | r :: rs, h => by
    have hr : r.timestamp ≤ now := h r (by simp)
    have ih := budget_seconds_eq_spec cfg now window pattern_lower rs
      (fun x hx => h x (by simp [hx]))
    rw [budgetSecondsSpec_cons]
    simp only [budget_seconds, est_match_head cfg r rs, ih]
    by_cases hc : r.timestamp < now - window
    · rw [if_pos hc]
      have : decide (now - window ≤ r.timestamp) = false := by
        simp [not_le.mpr hc]
      rw [this]
      simp
    · rw [if_neg hc]
      have h1 : decide (now - window ≤ r.timestamp) = true := by
        simp [not_lt.mp hc]
      have h2 : decide (r.timestamp ≤ now) = true := by simp [hr]
      rw [h1, h2]
      cases hm : pyInStr pattern_lower (pyLower r.activity_description)
      · simp [hm]
      · simp [hm]

/-! ## Claim theorems: budgets -/

/-- C6: with no future-stamped record, check_budgets reports, for exactly
those budgets whose specification sum — gap-to-next estimates over records
in [now - per, now] matching the pattern case-insensitively, nominal
interval for the newest — strictly exceeds max_minutes, the pattern with
the estimated minutes; concretely, matching records at t=0 and t=5 min with
interval 30 s give 5.5 min, which violates a 5-minute budget. -/
theorem check_budgets_spec (cfg : TrackerConfig) (now : ℚ)
    (history : List ActivityRecord) (budgets : List TimeBudget)
    (h : ∀ r ∈ history, r.timestamp ≤ now) :
    check_budgets cfg now history budgets =
      budgets.filterMap (fun budget =>
        if (budget.max_minutes : ℚ) <
            budgetSecondsSpec cfg now ((budget.per_minutes : ℚ) * 60)
              (pyLower budget.activity_pattern) history / 60 then
          some (budget.activity_pattern,
            budgetSecondsSpec cfg now ((budget.per_minutes : ℚ) * 60)
              (pyLower budget.activity_pattern) history / 60)
        else none) ∧
    check_budgets smallCfg 300 exBudgetHistory [exBudget] = [("youtube", 11/2)] ∧
    (5 : ℚ) < 11/2 := by
  refine ⟨?_, by decide, by decide⟩
  unfold check_budgets
  refine List.filterMap_congr fun b _ => ?_
  dsimp only
  rw [budget_seconds_eq_spec cfg now ((b.per_minutes : ℚ) * 60)
    (pyLower b.activity_pattern) history h]

/-- C6 witness: the correspondence instantiated on the spec's example. -/
theorem check_budgets_spec_witness :
    check_budgets smallCfg 300 exBudgetHistory [exBudget] =
      [exBudget].filterMap (fun budget =>
        if (budget.max_minutes : ℚ) <
            budgetSecondsSpec smallCfg 300 ((budget.per_minutes : ℚ) * 60)
              (pyLower budget.activity_pattern) exBudgetHistory / 60 then
          some (budget.activity_pattern,
            budgetSecondsSpec smallCfg 300 ((budget.per_minutes : ℚ) * 60)
              (pyLower budget.activity_pattern) exBudgetHistory / 60)
        else none) ∧
    check_budgets smallCfg 300 exBudgetHistory [exBudget] = [("youtube", 11/2)] ∧
    (5 : ℚ) < 11/2 :=
  check_budgets_spec smallCfg 300 exBudgetHistory [exBudget] (by decide)

/-- Filtering for a status other than "break" discards break samples. -/
theorem filter_replicate_break_eq_nil (k : Nat) (t : String)
    (h : (("break" : String) == t) = false) :
    (List.replicate k "break").filter (fun s => s == t) = [] := by
  induction k with
  | zero => rfl
  | succ n ih => simp [List.replicate_succ, List.filter_cons, h, ih]

/-! ## Claim theorems: daily score -/

/-- C7: the daily score is on_task / (on_task + off_task) * 100 over the
day's samples, defaults to 50 with no productive sample, and is unchanged
by adding break-classified samples; concretely 8 on_task, 2 off_task and
0 break give 80. -/
theorem build_score_spec (statuses : List String) (k : Nat) :
    (0 < (statuses.filter fun s => s == "on_task").length +
        (statuses.filter fun s => s == "off_task").length →
      build_score statuses =
        ((statuses.filter fun s => s == "on_task").length : ℚ) /
          (((statuses.filter fun s => s == "on_task").length +
            (statuses.filter fun s => s == "off_task").length : Nat) : ℚ) * 100) ∧
    ((statuses.filter fun s => s == "on_task").length +
        (statuses.filter fun s => s == "off_task").length = 0 →
      build_score statuses = 50) ∧
    build_score (statuses ++ List.replicate k "break") = build_score statuses ∧
    build_score exDay = 80 := by
  refine ⟨fun h => ?_, fun h => ?_, ?_, by decide⟩
  · unfold build_score
    rw [if_pos h]
  · unfold build_score
    rw [if_neg (by omega)]
  · unfold build_score
    rw [List.filter_append, List.filter_append,
      filter_replicate_break_eq_nil k "on_task" (by decide),
      filter_replicate_break_eq_nil k "off_task" (by decide),
      List.append_nil, List.append_nil]

/-- C7 witness: the score formula and break-neutrality on the example day. -/
theorem build_score_spec_witness :
    0 < (exDay.filter fun s => s == "on_task").length +
        (exDay.filter fun s => s == "off_task").length ∧
    build_score exDay =
      ((exDay.filter fun s => s == "on_task").length : ℚ) /
        (((exDay.filter fun s => s == "on_task").length +
          (exDay.filter fun s => s == "off_task").length : Nat) : ℚ) * 100 ∧
    build_score (exDay ++ List.replicate 3 "break") = build_score exDay ∧
    build_score exDay = 80 :=
  ⟨by decide, (build_score_spec exDay 3).1 (by decide),
    (build_score_spec exDay 3).2.2.1, (build_score_spec exDay 3).2.2.2⟩

/-- The threshold loop maps a ratio to the five tiers by its band. -/
theorem rankLoop_bands (q : ℚ) :
    (q < 2/5 →
      rankLoop q (rank_thresholds.zip RANKINGS) (RANKINGS.getLastD "") = "waste of ATP") ∧
    (2/5 ≤ q → q < 7/10 →
      rankLoop q (rank_thresholds.zip RANKINGS) (RANKINGS.getLastD "") = "lazy") ∧
    (7/10 ≤ q → q < 11/10 →
      rankLoop q (rank_thresholds.zip RANKINGS) (RANKINGS.getLastD "") = "nothing special") ∧
    (11/10 ≤ q → q < 7/5 →
      rankLoop q (rank_thresholds.zip RANKINGS) (RANKINGS.getLastD "") = "productive") ∧
    (7/5 ≤ q →
      rankLoop q (rank_thresholds.zip RANKINGS) (RANKINGS.getLastD "") = "paul dirac") := by
  have hz : rank_thresholds.zip RANKINGS =
      [((2 : ℚ)/5, "waste of ATP"), (7/10, "lazy"), (11/10, "nothing special"),
        (7/5, "productive")] := rfl
  rw [hz]
  refine ⟨fun h1 => ?_, fun h1 h2 => ?_, fun h1 h2 => ?_, fun h1 h2 => ?_, fun h1 => ?_⟩
  · simp [rankLoop, h1]
  · simp [rankLoop, not_lt.mpr h1, h2]
  · have g1 : ¬(q < 2/5) := not_lt.mpr (le_trans (by norm_num) h1)
    simp [rankLoop, g1, not_lt.mpr h1, h2]
  · have g1 : ¬(q < 2/5) := not_lt.mpr (le_trans (by norm_num) h1)
    have g2 : ¬(q < 7/10) := not_lt.mpr (le_trans (by norm_num) h1)
    simp [rankLoop, g1, g2, not_lt.mpr h1, h2]
  · have g1 : ¬(q < 2/5) := not_lt.mpr (le_trans (by norm_num) h1)
    have g2 : ¬(q < 7/10) := not_lt.mpr (le_trans (by norm_num) h1)
    have g3 : ¬(q < 11/10) := not_lt.mpr (le_trans (by norm_num) h1)
    simp [rankLoop, g1, g2, g3, not_lt.mpr h1, RANKINGS]

/-- Every retained past score is positive. -/
theorem past_scores_pos (past : List StoredSummary) (today_str : String) :
    ∀ x ∈ past_scores past today_str, 0 < x := by
  intro x hx
  obtain ⟨s, hs, rfl⟩ := List.mem_map.mp hx
  have h := (List.mem_filter.mp hs).2
  simp only [Bool.and_eq_true, decide_eq_true_eq] at h
  exact h.2

/-! ## Claim theorems: ranking -/

/-- C8 counterexample: with prior-day summaries scored 0 and 100 and a
today score of 50, the code excludes the zero-scored day and uses mean 100
(ratio 0.5, tier "lazy"), while the claim's mean over all prior days is 50
(ratio 1.0, tier "nothing special"). -/
theorem rank_zero_score_prior_day_cex :
    rank exPastZero "2026-10-12" 50 = "lazy" ∧
    rankSpec exPastZero "2026-10-12" 50 = "nothing special" ∧
    ("lazy" : String) ≠ "nothing special" := by
  decide

/-- C8 (amended): the code averages the positive scores among the loaded
summaries other than today's (the load covers the 29 prior calendar days);
with none retained the rank is "productive"; otherwise the average is
positive and score / average maps through the ascending thresholds
[0.4, 0.7, 1.1, 1.4] onto the five tiers lowest to highest, below 0.4 the
lowest, at or above 1.4 the highest; concretely 1.5x the mean ranks
"paul dirac" and 0.3x ranks "waste of ATP". -/
theorem rank_spec_amended (past : List StoredSummary) (today_str : String)
    (score : ℚ) :
    (past_scores past today_str = [] → rank past today_str score = "productive") ∧
    (past_scores past today_str ≠ [] →
      0 < (past_scores past today_str).sum /
          ((past_scores past today_str).length : ℚ) ∧
      (∀ q, q = score / ((past_scores past today_str).sum /
          ((past_scores past today_str).length : ℚ)) →
        (q < 2/5 → rank past today_str score = "waste of ATP") ∧
        (2/5 ≤ q → q < 7/10 → rank past today_str score = "lazy") ∧
        (7/10 ≤ q → q < 11/10 → rank past today_str score = "nothing special") ∧
        (11/10 ≤ q → q < 7/5 → rank past today_str score = "productive") ∧
        (7/5 ≤ q → rank past today_str score = "paul dirac"))) ∧
    rank exPast60 "2026-10-12" 90 = "paul dirac" ∧
    rank exPast60 "2026-10-12" 18 = "waste of ATP" := by
  refine ⟨fun h => by simp [rank, h], fun h => ?_, by decide, by decide⟩
  have hsum : 0 < (past_scores past today_str).sum :=
    List.sum_pos _ (past_scores_pos past today_str) h
  have hlen : 0 < ((past_scores past today_str).length : ℚ) := by
    have := List.length_pos.mpr h
    exact_mod_cast this
  have havg : 0 < (past_scores past today_str).sum /
      ((past_scores past today_str).length : ℚ) := div_pos hsum hlen
  refine ⟨havg, fun q hq => ?_⟩
  have hrank : rank past today_str score =
      rankLoop q (rank_thresholds.zip RANKINGS) (RANKINGS.getLastD "") := by
    unfold rank
    dsimp only
    rw [if_neg (by simp [List.isEmpty_iff, h]), if_neg havg.ne', hq]
  rw [hrank]
  exact rankLoop_bands q

/-- C8 witness: two prior days averaging 60 rank a 90-scoring day (1.5x)
as "paul dirac". -/
theorem rank_spec_amended_witness :
    0 < (past_scores exPast60 "2026-10-12").sum /
        ((past_scores exPast60 "2026-10-12").length : ℚ) ∧
    rank exPast60 "2026-10-12" 90 = "paul dirac" ∧
    rank exPast60 "2026-10-12" 18 = "waste of ATP" := by
  have h := (rank_spec_amended exPast60 "2026-10-12" 90).2.1 (by decide)
  exact ⟨h.1, (h.2 _ rfl).2.2.2.2 (by decide),
    (rank_spec_amended exPast60 "2026-10-12" 90).2.2.2⟩

/-- A freshly appended record survives pruning when its timestamp is inside
the window. -/
theorem mem_prune_of_fresh (cfg : TrackerConfig) (now : ℚ)
    (history : List ActivityRecord) (r : ActivityRecord)
    (hts : now - cfg.history_window ≤ r.timestamp) :
    r ∈ prune_history cfg now (history ++ [r]) := by
  unfold prune_history
  dsimp only
  have hkeep : (history ++ [r]).filter
      (fun x => decide (now - cfg.history_window ≤ x.timestamp)) =
      history.filter (fun x => decide (now - cfg.history_window ≤ x.timestamp)) ++ [r] := by
    rw [List.filter_append]
    simp [List.filter_cons]
    linarith
  rw [hkeep]
  split
  · exact mem_takeLastPy_concat _ _ r
  · simp

/-! ## Claim theorems: persistence failure handling -/

/-- C9 counterexample: the summary save has no exception handler, so with a
failing write generate_today propagates the error instead of returning the
generated summary. -/
theorem generate_today_save_failure_cex :
    generate_today false [] "2026-10-12" exDay [] = Except.error "write failed" :=
  rfl

/-- C9 (amended): the activity-log append failure is caught inside record —
the derived record (timestamped inside the window) stays in history, the
in-memory history does not depend on the write outcome, and a failed append
leaves the persistent log unchanged; the daily-summary save, by contrast,
is unguarded: a successful write returns the generated summary with the
stored text, while a failing write propagates an error and returns no
summary. -/
theorem persistence_failure_handling (cfg : TrackerConfig) (writeOk : Bool)
    (now : ℚ) (st : TrackerState) (result : AnalysisResult)
    (store : List (String × String)) (day : String) (statuses : List String)
    (past : List StoredSummary)
    (hts : now - cfg.history_window ≤ result.timestamp) :
    ActivityRecord.from_analysis result ∈
      (record_with_log cfg writeOk now st result).history ∧
    (record_with_log cfg false now st result).history =
      (record_with_log cfg true now st result).history ∧
    (record_with_log cfg false now st result).log = st.log ∧
    generate_today true store day statuses past =
      Except.ok (store ++ [(day, toString (build_score statuses))],
        { day := day, score := build_score statuses,
          ranking := rank past day (build_score statuses) }) ∧
    generate_today false store day statuses past = Except.error "write failed" :=
  ⟨mem_prune_of_fresh cfg now st.history (ActivityRecord.from_analysis result) hts,
    rfl, rfl, rfl, rfl⟩

/-- C9 witness: recording with a failing write keeps the record in memory,
and summary generation with a failing write errors out. -/
theorem persistence_failure_handling_witness :
    ActivityRecord.from_analysis resAt0 ∈
      (record_with_log smallCfg false 0 ⟨[], []⟩ resAt0).history ∧
    (record_with_log smallCfg false 0 ⟨[], []⟩ resAt0).history =
      (record_with_log smallCfg true 0 ⟨[], []⟩ resAt0).history ∧
    (record_with_log smallCfg false 0 ⟨[], []⟩ resAt0).log = ([] : List String) ∧
    generate_today true [] "2026-10-12" exDay [] =
      Except.ok ([] ++ [("2026-10-12", toString (build_score exDay))],
        { day := "2026-10-12", score := build_score exDay,
          ranking := rank [] "2026-10-12" (build_score exDay) }) ∧
    generate_today false [] "2026-10-12" exDay [] = Except.error "write failed" :=
  persistence_failure_handling smallCfg false 0 ⟨[], []⟩ resAt0 [] "2026-10-12"
    exDay [] (by decide)

end Focus
